import Mathlib

/-!
Verification of the trin JSON-RPC ingress layer (`src/jsonrpc.rs`).

The Rust source is shallowly embedded below:

* `Json` models `serde_json` values (numbers restricted to integers, which is
  all the embedded code consumes: `JsonRequest.id` is a `u32` and `serde_json`
  rejects fractional literals for it).
* `JsonRequest` mirrors the `#[derive(Deserialize, Serialize, Validate)]`
  struct: fields `jsonrpc`, `method`, `id : u32`.  `deserializeJsonRequest`
  models serde's derived deserializer (unknown fields ignored, duplicate known
  fields rejected, `id` must be an unsigned integer below `2^32`), and
  `serializeJsonRequest` models `serde_json::to_string(&obj)` (the three
  declared fields in declaration order).
* The network is abstracted as a function `net : String -> UpstreamOutcome`
  mapping the POSTed request body to what `reqwest` observes; `proxy_to_url`,
  `handle_request`, `process_http_request`, `serve_ipc_client` and
  `serve_http_client` are then direct transcriptions.  Response bodies are
  modelled as `String`s (valid UTF-8; the Rust success path applies
  `std::str::from_utf8(..).unwrap()` to the body bytes).
* The `Display` rendering of the `validator` crate's `ValidationErrors` is kept
  abstract as a parameter `render`; the code only ever concatenates it after a
  fixed leading text.
* Panic/exit behaviour of `set_ipc_cleanup_handlers` (lines 42-60) is modelled
  by effect traces: both the ctrl-c handler and the panic hook call
  `fs::remove_file(..).unwrap()`, so a failed removal panics inside the
  handler; the panic hook otherwise chains to the original hook and then calls
  `process::exit(1)`.
-/

namespace Trin

/-- A JSON value as parsed by serde_json, with numbers restricted to
integers (sufficient for every value the embedded code inspects). -/
inductive Json where
  | null
  | bool (b : Bool)
  | num (n : Int)
  | str (s : String)
  | arr (elems : List Json)
  | obj (members : List (String × Json))
deriving Repr

/-- First binding of a key in a JSON object's member list (serde reads fields
in order; with the duplicate check below, first = only). -/
def lookupField : List (String × Json) → String → Option Json
  | [], _ => none
  | (k, v) :: rest, key => if k = key then some v else lookupField rest key

/-- Number of bindings of a key in a JSON object's member list. -/
def countField : List (String × Json) → String → Nat
  | [], _ => 0
  | (k, _) :: rest, key => (if k = key then 1 else 0) + countField rest key

/-- The `JsonRequest` struct of `src/jsonrpc.rs` lines 13-19:
`jsonrpc: String`, `method: String`, `id: u32` (the `u32` range is enforced by
`deserializeJsonRequest`; `id` is kept as `Nat`). -/
structure JsonRequest where
  jsonrpc : String
  method : String
  id : Nat
deriving Repr, DecidableEq

/-- `validate_jsonrpc_version` (lines 21-26): accept exactly the literal
string "2.0", otherwise a `ValidationError` named "Unsupported jsonrpc
version". -/
def validate_jsonrpc_version (jsonrpc : String) : Except String Unit :=
  if jsonrpc ≠ "2.0" then Except.error "Unsupported jsonrpc version" else Except.ok ()

/-- The derived `Validate` impl for `JsonRequest`: the only rule is the
custom validator on the `jsonrpc` field, so the error list is either empty
(`Ok`) or contains exactly the `jsonrpc` violation.  Errors are modelled as a
list of (field name, error message) pairs. -/
def JsonRequest.validate (r : JsonRequest) : Except (List (String × String)) Unit :=
  match validate_jsonrpc_version r.jsonrpc with
  | Except.ok _ => Except.ok ()
  | Except.error e => Except.error [("jsonrpc", e)]

/-- Serde's derived deserializer for `JsonRequest`: the value must be an
object, each declared field must occur exactly once (serde errors on duplicate
known fields; unknown fields are ignored), `jsonrpc` and `method` must be JSON
strings, and `id` must be an unsigned integer representable in 32 bits
(`u32`).  Any other shape is a deserialization error (`none`). -/
def deserializeJsonRequest : Json → Option JsonRequest
  | Json.obj members =>
    if countField members "jsonrpc" = 1 ∧ countField members "method" = 1
        ∧ countField members "id" = 1 then
      match lookupField members "jsonrpc", lookupField members "method",
          lookupField members "id" with
      | some (Json.str jsonrpc), some (Json.str method), some (Json.num n) =>
        if 0 ≤ n ∧ n < 4294967296 then some ⟨jsonrpc, method, n.toNat⟩ else none
      | _, _, _ => none
    else none
  | _ => none

/-- One hexadecimal digit, lower case, as emitted by serde_json's
`\u00XX` escapes. -/
def hexDigit (n : Nat) : Char :=
  if n < 10 then Char.ofNat (48 + n) else Char.ofNat (87 + n)

/-- serde_json's string-character escaping: quote and backslash are
backslash-escaped, control characters use the short escapes or `\u00XX`, and
everything else is emitted verbatim. -/
def escapeChar (c : Char) : String :=
  if c = '"' then "\\\""
  else if c = '\\' then "\\\\"
  else if c.toNat < 32 then
    if c = Char.ofNat 8 then "\\b"
    else if c = Char.ofNat 9 then "\\t"
    else if c = Char.ofNat 10 then "\\n"
    else if c = Char.ofNat 12 then "\\f"
    else if c = Char.ofNat 13 then "\\r"
    else "\\u00" ++ String.mk [hexDigit (c.toNat / 16), hexDigit (c.toNat % 16)]
  else String.mk [c]

/-- serde_json escaping of a whole string (without the surrounding quotes). -/
def escapeString (s : String) : String :=
  String.join (s.data.map escapeChar)

mutual
/-- serde_json's compact rendering (`serde_json::to_string`): no whitespace,
object members in order. -/
def renderJson : Json → String
  | Json.null => "null"
  | Json.bool true => "true"
  | Json.bool false => "false"
  | Json.num n => toString n
  | Json.str s => "\"" ++ escapeString s ++ "\""
  | Json.arr elems => "[" ++ renderElems elems ++ "]"
  | Json.obj members => "\x7b" ++ renderMembers members ++ "\x7d"

/-- Comma-separated rendering of array elements. -/
def renderElems : List Json → String
  | [] => ""
  | [e] => renderJson e
  | e :: rest => renderJson e ++ "," ++ renderElems rest

/-- Comma-separated rendering of object members. -/
def renderMembers : List (String × Json) → String
  | [] => ""
  | [(k, v)] => "\"" ++ escapeString k ++ "\":" ++ renderJson v
  | (k, v) :: rest => "\"" ++ escapeString k ++ "\":" ++ renderJson v ++ "," ++ renderMembers rest
end

/-- The JSON value produced by the derived `Serialize` impl for `JsonRequest`:
exactly the three declared fields, in declaration order.  Fields of the
original request body beyond these three were never stored and so cannot
appear. -/
def jsonOfRequest (r : JsonRequest) : Json :=
  Json.obj [("jsonrpc", Json.str r.jsonrpc), ("method", Json.str r.method),
    ("id", Json.num (r.id : Int))]

/-- `serde_json::to_string(&obj)` as used at line 168 to build the body
POSTed to the fallback provider. -/
def serializeJsonRequest (r : JsonRequest) : String :=
  renderJson (jsonOfRequest r)

/-- What `reqwest` observes for one POST: either the send itself fails
(`sendError`, with the `Debug` rendering of the error), or a response arrives
with a status code and a body-read result (`none` models a failure of
`response.bytes()`; bodies are `String`s, i.e. valid UTF-8 byte sequences). -/
inductive UpstreamOutcome where
  | sendError (err : String)
  | response (status : Nat) (body : Option String)

/-- `StatusCode::is_success`: 2xx. -/
def statusIsSuccess (status : Nat) : Bool :=
  200 ≤ status && status < 300

/-- `proxy_to_url` (lines 181-207).  The network is the function `net` from
the POSTed body to the upstream outcome; `toString status` models the `Debug`
rendering of `StatusCode` (its numeric code). -/
def proxy_to_url (net : String → UpstreamOutcome) (request : String) : Except String String :=
  match net request with
  | UpstreamOutcome.sendError err => Except.error ("Request failure: " ++ err)
  | UpstreamOutcome.response status body =>
    if statusIsSuccess status then
      match body with
      | some bytes => Except.ok bytes
      | none => Except.error "Unexpected error when accessing the response body"
    else
      Except.error ("Responded with status code: " ++ toString status)

/-- `handle_request` (lines 159-179).  `web3_clientVersion` is answered
locally by a fixed payload interpolating the numeric request id; every other
method re-serializes the struct and proxies it, wrapping any proxy error in
the `Infura failure` envelope whose id is interpolated between quotes. -/
def handle_request (net : String → UpstreamOutcome) (obj : JsonRequest) : Except String String :=
  if obj.method = "web3_clientVersion" then
    Except.ok ("\x7b\"jsonrpc\":\"2.0\",\"id\":" ++ toString obj.id
      ++ ",\"result\":\"trin 0.0.1-alpha\"\x7d")
  else
    match proxy_to_url net (serializeJsonRequest obj) with
    | Except.ok body => Except.ok body
    | Except.error err =>
      Except.error ("\x7b\"jsonrpc\":\"2.0\",\"id\":\"" ++ toString obj.id
        ++ "\",\"error\":\"Infura failure: " ++ err ++ "\"\x7d")

/-- `process_http_request` (lines 141-157): 200 framing for `Ok`, 502 framing
for `Err`; `Content-Length` is the Rust `String::len`, i.e. the UTF-8 byte
size of the body.  The `format!` template is transcribed as the evident
concatenation. -/
def process_http_request (net : String → UpstreamOutcome) (obj : JsonRequest) : String :=
  match handle_request net obj with
  | Except.ok contents =>
    "HTTP/1.1 200 OK" ++ "\r\nContent-Length: " ++ toString contents.utf8ByteSize
      ++ "\r\n\r\n" ++ contents
  | Except.error contents =>
    "HTTP/1.1 502 BAD GATEWAY" ++ "\r\nContent-Length: " ++ toString contents.utf8ByteSize
      ++ "\r\n\r\n" ++ contents

/-- The bytes written back for one well-parsed IPC request (body of the loop
in `serve_ipc_client`, lines 110-119): result or error contents verbatim on
a valid envelope, otherwise the raw validation-error text.  `render` is the
`Display` rendering of the validator crate's `ValidationErrors`. -/
def ipcRespond (net : String → UpstreamOutcome)
    (render : List (String × String) → String) (obj : JsonRequest) : String :=
  match obj.validate with
  | Except.ok _ =>
    match handle_request net obj with
    | Except.ok contents => contents
    | Except.error contents => contents
  | Except.error e => "Unsupported trin request: " ++ render e

/-- The bytes written back for one well-parsed HTTP request (body of the loop
in `serve_http_client`, lines 130-137): full 200/502 framing on a valid
envelope, otherwise a 400 status line, a blank line and the validation error
— with no Content-Length header. -/
def httpRespond (net : String → UpstreamOutcome)
    (render : List (String × String) → String) (obj : JsonRequest) : String :=
  match obj.validate with
  | Except.ok _ => process_http_request net obj
  | Except.error e => "HTTP/1.1 400 BAD REQUEST" ++ "\r\n\r\n" ++ render e

/-- One element of the serde_json stream deserializer's iterator: a
well-formed `JsonRequest`, or a deserialization failure. -/
inductive ParseItem where
  | ok (request : JsonRequest)
  | malformed
deriving Repr, DecidableEq

/-- How the per-connection loop ends: the input stream was exhausted (`eof`),
or `obj.unwrap()` panicked on a deserialization failure and the connection
was torn down (`tornDown`). -/
inductive ConnEnd where
  | eof
  | tornDown
deriving Repr, DecidableEq

/-- The per-connection loop shared by both frontends: respond to each parsed
request in arrival order; the first malformed item panics (`unwrap`), ending
the connection with no further items served. -/
def serveItems (respond : JsonRequest → String) : List ParseItem → List String × ConnEnd
  | [] => ([], ConnEnd.eof)
  | ParseItem.malformed :: _ => ([], ConnEnd.tornDown)
  | ParseItem.ok obj :: rest =>
    let next := serveItems respond rest
    (respond obj :: next.1, next.2)

/-- `serve_ipc_client` (lines 106-122) over the parsed item stream: the list
of replies written back, in order, and how the loop ended. -/
def serve_ipc_client (net : String → UpstreamOutcome)
    (render : List (String × String) → String) (items : List ParseItem) :
    List String × ConnEnd :=
  serveItems (ipcRespond net render) items

/-- `serve_http_client` (lines 124-139) over the parsed item stream. -/
def serve_http_client (net : String → UpstreamOutcome)
    (render : List (String × String) → String) (items : List ParseItem) :
    List String × ConnEnd :=
  serveItems (httpRespond net render) items

/-- Classify one JSON value the way the stream deserializer does. -/
def parseItemOf (j : Json) : ParseItem :=
  match deserializeJsonRequest j with
  | some r => ParseItem.ok r
  | none => ParseItem.malformed

/-- Fate of the whole process after a connection is handled. -/
inductive ProcessOutcome where
  | running
  | exitedWithCode (code : Nat)
  | abortedSecondary
deriving Repr, DecidableEq

/-- `fs::remove_file(path)`: succeeds exactly when the file is present. -/
def removeFileResult (present : Bool) : Except Unit Unit :=
  if present then Except.ok () else Except.error ()

/-- What happens to the process when a worker thread panics.  With no custom
hook installed (HTTP frontend), the default hook prints and the unwind is
caught by the threadpool's sentinel, so the process keeps running.  With the
hook installed by `set_ipc_cleanup_handlers` (lines 54-59), the hook runs
`fs::remove_file(..).unwrap()` and then `process::exit(1)`: if the removal
succeeds the process exits with code 1; if it fails, the `unwrap` panics
inside the panic hook — a secondary fault that aborts. -/
def panicProcessOutcome (cleanupHookInstalled : Bool) (socketPresent : Bool) : ProcessOutcome :=
  if cleanupHookInstalled then
    match removeFileResult socketPresent with
    | Except.ok _ => ProcessOutcome.exitedWithCode 1
    | Except.error _ => ProcessOutcome.abortedSecondary
  else ProcessOutcome.running

/-- Process fate after one connection's loop ends: a clean end leaves the
process running; a torn-down connection means a worker panicked, deferring to
the installed panic-hook behaviour. -/
def connectionProcessOutcome (cleanupHookInstalled : Bool) (socketPresent : Bool)
    (conn : ConnEnd) : ProcessOutcome :=
  match conn with
  | ConnEnd.eof => ProcessOutcome.running
  | ConnEnd.tornDown => panicProcessOutcome cleanupHookInstalled socketPresent

/-- Process fate after one IPC connection: `launch_ipc_client` installed the
cleanup handlers (line 66), so the cleanup hook is live. -/
def ipcConnectionOutcome (net : String → UpstreamOutcome)
    (render : List (String × String) → String) (items : List ParseItem)
    (socketPresent : Bool) : ProcessOutcome :=
  connectionProcessOutcome true socketPresent (serve_ipc_client net render items).2

/-- Process fate after one HTTP connection: `launch_http_client` installs no
hooks, so the default panic behaviour applies. -/
def httpConnectionOutcome (net : String → UpstreamOutcome)
    (render : List (String × String) → String) (items : List ParseItem) : ProcessOutcome :=
  connectionProcessOutcome false true (serve_http_client net render items).2

/-- Observable steps of the shutdown handlers of `set_ipc_cleanup_handlers`
(lines 42-60). -/
inductive HandlerEffect where
  | removeFileAttempt
  | invokeOriginalHook
  | exitProcess (code : Nat)
  | panickedSecondary
deriving Repr, DecidableEq

/-- The ctrl-c handler (lines 46-50): `fs::remove_file(&ipc_path).unwrap();
std::process::exit(1)`.  A failed removal makes the `unwrap` panic before the
exit is reached. -/
def ctrlcHandlerEffects (socketPresent : Bool) : List HandlerEffect :=
  match removeFileResult socketPresent with
  | Except.ok _ => [HandlerEffect.removeFileAttempt, HandlerEffect.exitProcess 1]
  | Except.error _ => [HandlerEffect.removeFileAttempt, HandlerEffect.panickedSecondary]

/-- The panic hook (lines 54-59): `fs::remove_file(&ipc_path).unwrap();
original_panic(panic_info); process::exit(1)`.  A failed removal panics while
already panicking. -/
def panicHookEffects (socketPresent : Bool) : List HandlerEffect :=
  match removeFileResult socketPresent with
  | Except.ok _ => [HandlerEffect.removeFileAttempt, HandlerEffect.invokeOriginalHook,
      HandlerEffect.exitProcess 1]
  | Except.error _ => [HandlerEffect.removeFileAttempt, HandlerEffect.panickedSecondary]

/-- The standard HTTP/1.1 framing the spec ascribes to every HTTP response:
status line, a `Content-Length` header equal to the body's byte length, a
blank line, and the body. -/
def framedResponse (statusLine body : String) : String :=
  statusLine ++ "\r\nContent-Length: " ++ toString body.utf8ByteSize ++ "\r\n\r\n" ++ body

/-- Strip an expected character sequence from the front of a character list,
returning the remainder if it was there. -/
def dropExpected : List Char → List Char → Option (List Char)
  | [], rest => some rest
  | _ :: _, [] => none
  | p :: ps, c :: cs => if c = p then dropExpected ps cs else none

/-- Split a character list at the first blank line (`CRLF CRLF`). -/
def splitAtBlankLine : List Char → Option (List Char × List Char)
  | '\r' :: '\n' :: '\r' :: '\n' :: rest => some ([], rest)
  | [] => none
  | c :: rest =>
    match splitAtBlankLine rest with
    | some (before, after) => some (c :: before, after)
    | none => none

/-- Decide whether `resp` is `framedResponse statusLine body` for some body:
it must start with the status line and a `Content-Length` header, have a
blank line, and the header value must print the byte length of what follows.
(Sound because the header value contains no CR, so the first blank line is
the real one.) -/
def isFramedOn (statusLine resp : String) : Bool :=
  match dropExpected (statusLine ++ "\r\nContent-Length: ").data resp.data with
  | none => false
  | some rest =>
    match splitAtBlankLine rest with
    | none => false
    | some (lenDigits, body) =>
      lenDigits == (toString (String.mk body).utf8ByteSize).data

/-- A trivial upstream used to instantiate theorems at concrete inputs. -/
def emptyNet : String → UpstreamOutcome :=
  fun _ => UpstreamOutcome.sendError ""

/-- A trivial `ValidationErrors` rendering used at concrete inputs. -/
def emptyRender : List (String × String) → String :=
  fun _ => ""

/-- An upstream that answers every POST with HTTP 200 and a small JSON body. -/
def net200 : String → UpstreamOutcome :=
  fun _ => UpstreamOutcome.response 200
    (some "\x7b\"jsonrpc\":\"2.0\",\"id\":1,\"result\":\"0x0\"\x7d")

/-- An upstream that answers every POST with HTTP 503 and an empty body. -/
def net503 : String → UpstreamOutcome :=
  fun _ => UpstreamOutcome.response 503 (some "")

/-- The member list of a JSON object (empty for non-objects). -/
def jsonMembers : Json → List (String × Json)
  | Json.obj members => members
  | _ => []

/-- A concrete incoming request body carrying a provider-specific `params`
field beyond the three declared ones. -/
def c5Members : List (String × Json) :=
  [("jsonrpc", Json.str "2.0"), ("method", Json.str "eth_getBlockByNumber"),
   ("id", Json.num 1), ("params", Json.arr [Json.str "latest", Json.bool false])]

/-! ## Basic lemmas about the embedding -/

theorem validate_ok_iff (r : JsonRequest) : r.validate = Except.ok () ↔ r.jsonrpc = "2.0" := by
  unfold JsonRequest.validate validate_jsonrpc_version
  by_cases h : r.jsonrpc = "2.0" <;> simp [h]

theorem validate_error_of_ne (r : JsonRequest) (h : r.jsonrpc ≠ "2.0") :
    r.validate = Except.error [("jsonrpc", "Unsupported jsonrpc version")] := by
  unfold JsonRequest.validate validate_jsonrpc_version
  simp [h]

theorem serveItems_allOk (respond : JsonRequest → String) (objs : List JsonRequest) :
    serveItems respond (objs.map ParseItem.ok) = (objs.map respond, ConnEnd.eof) := by
  induction objs with
  | nil => rfl
  | cons r rest ih => simp [serveItems, ih]

theorem serveItems_okPrefix_malformed (respond : JsonRequest → String)
    (pre : List JsonRequest) (post : List ParseItem) :
    serveItems respond (pre.map ParseItem.ok ++ ParseItem.malformed :: post)
      = (pre.map respond, ConnEnd.tornDown) := by
  induction pre with
  | nil => rfl
  | cons r rest ih => simp [serveItems, ih]

theorem deserialize_obj_char (members : List (String × Json)) (r : JsonRequest)
    (h : deserializeJsonRequest (Json.obj members) = some r) :
    ∃ jj mm : String, ∃ n : Int,
      lookupField members "jsonrpc" = some (Json.str jj)
      ∧ lookupField members "method" = some (Json.str mm)
      ∧ lookupField members "id" = some (Json.num n)
      ∧ 0 ≤ n ∧ n < 4294967296 ∧ r = ⟨jj, mm, n.toNat⟩ := by
  simp only [deserializeJsonRequest] at h
  by_cases hc : countField members "jsonrpc" = 1 ∧ countField members "method" = 1
      ∧ countField members "id" = 1
  · rw [if_pos hc] at h
    rcases hj : lookupField members "jsonrpc" with _ | jv <;> rw [hj] at h
    · simp at h
    cases jv with
    | null => simp at h
    | bool b => simp at h
    | num m => simp at h
    | arr es => simp at h
    | obj ms => simp at h
    | str jj => ?_
    rcases hm2 : lookupField members "method" with _ | mv <;> rw [hm2] at h
    · simp at h
    cases mv with
    | null => simp at h
    | bool b => simp at h
    | num m => simp at h
    | arr es => simp at h
    | obj ms => simp at h
    | str mm => ?_
    rcases hid : lookupField members "id" with _ | iv <;> rw [hid] at h
    · simp at h
    cases iv with
    | null => simp at h
    | bool b => simp at h
    | str s => simp at h
    | arr es => simp at h
    | obj ms => simp at h
    | num n => ?_
    have h2 : (if 0 ≤ n ∧ n < 4294967296 then
        some (⟨jj, mm, n.toNat⟩ : JsonRequest) else none) = some r := h
    by_cases hr : 0 ≤ n ∧ n < 4294967296
    · rw [if_pos hr] at h2
      injection h2 with h'
      exact ⟨jj, mm, n, rfl, rfl, rfl, hr.1, hr.2, h'.symm⟩
    · rw [if_neg hr] at h2
      cases h2
  · rw [if_neg hc] at h
    cases h

/-! ## Claim theorems -/

/-- C1: for every valid envelope whose method equals `web3_clientVersion`,
`handle_request` replies with the fixed success payload
`\x7b"jsonrpc":"2.0","id":<id>,"result":"trin 0.0.1-alpha"\x7d` whose id field
is the request's numeric id, and the reply is the same under every upstream
network — no sub-network or proxy call contributes to it. -/
theorem c1_clientVersion_fixed_reply (net net' : String → UpstreamOutcome) (r : JsonRequest)
    (hv : r.validate = Except.ok ()) (hm : r.method = "web3_clientVersion") :
    handle_request net r
      = Except.ok ("\x7b\"jsonrpc\":\"2.0\",\"id\":" ++ toString r.id
          ++ ",\"result\":\"trin 0.0.1-alpha\"\x7d")
    ∧ handle_request net r = handle_request net' r := by
  constructor <;> simp [handle_request, hm]

/-- C1 witness: the spec scenario, id 1. -/
theorem c1_clientVersion_fixed_reply_witness :
    handle_request emptyNet ⟨"2.0", "web3_clientVersion", 1⟩
      = Except.ok "\x7b\"jsonrpc\":\"2.0\",\"id\":1,\"result\":\"trin 0.0.1-alpha\"\x7d" := by
  have h := (c1_clientVersion_fixed_reply emptyNet emptyNet ⟨"2.0", "web3_clientVersion", 1⟩
    rfl rfl).1
  rw [h]
  rfl

/-- C2: the validator accepts an envelope exactly when its `jsonrpc` field is
the literal "2.0"; on rejection the reported violation list is exactly the
single `jsonrpc` entry, the verdict is unchanged under any `method` and `id`
(no other field is validated), and an invalid envelope is answered by both
frontends without consulting the network (the reply is independent of it),
so the request is never dispatched onward. -/
theorem c2_validator_version_only (r : JsonRequest) :
    (r.validate = Except.ok () ↔ r.jsonrpc = "2.0")
    ∧ (r.jsonrpc ≠ "2.0" →
        r.validate = Except.error [("jsonrpc", "Unsupported jsonrpc version")])
    ∧ (∀ m i, JsonRequest.validate ⟨r.jsonrpc, m, i⟩ = r.validate)
    ∧ (∀ net net' render, r.jsonrpc ≠ "2.0" →
        ipcRespond net render r
          = "Unsupported trin request: " ++ render [("jsonrpc", "Unsupported jsonrpc version")]
        ∧ httpRespond net render r
          = "HTTP/1.1 400 BAD REQUEST" ++ "\r\n\r\n"
              ++ render [("jsonrpc", "Unsupported jsonrpc version")]
        ∧ ipcRespond net render r = ipcRespond net' render r
        ∧ httpRespond net render r = httpRespond net' render r) := by
  refine ⟨validate_ok_iff r, fun h => validate_error_of_ne r h, ?_, ?_⟩
  · intro m i
    unfold JsonRequest.validate validate_jsonrpc_version
    rfl
  · intro net net' render h
    have he := validate_error_of_ne r h
    refine ⟨?_, ?_, ?_, ?_⟩ <;> simp [ipcRespond, httpRespond, he]

/-- C2 witness: the repository's own negative test input, jsonrpc "1.0". -/
theorem c2_validator_version_only_witness :
    JsonRequest.validate ⟨"1.0", "eth_blockNumber", 1⟩
      = Except.error [("jsonrpc", "Unsupported jsonrpc version")]
    ∧ ipcRespond emptyNet emptyRender ⟨"1.0", "eth_blockNumber", 1⟩
      = "Unsupported trin request: " := by
  have h := c2_validator_version_only ⟨"1.0", "eth_blockNumber", 1⟩
  refine ⟨h.2.1 (by decide), ?_⟩
  have h2 := (h.2.2.2 emptyNet emptyNet emptyRender (by decide)).1
  rw [h2]
  rfl

/-- C3 counterexample: the claim says every HTTP response, the 400 one
included, carries a `Content-Length` header equal to the body's byte length.
The 400 path of `serve_http_client` (line 134) writes only a status line, a
blank line and the error body, so the concrete validation failure below
produces a response with no `Content-Length` header at all, while the 200 and
502 responses at concrete inputs do satisfy the claimed framing. -/
theorem c3_counterexample_400_unframed :
    httpRespond emptyNet emptyRender ⟨"1.0", "foo", 7⟩ = "HTTP/1.1 400 BAD REQUEST\r\n\r\n"
    ∧ isFramedOn "HTTP/1.1 400 BAD REQUEST"
        (httpRespond emptyNet emptyRender ⟨"1.0", "foo", 7⟩) = false
    ∧ isFramedOn "HTTP/1.1 200 OK"
        (process_http_request net200 ⟨"2.0", "eth_blockNumber", 1⟩) = true
    ∧ isFramedOn "HTTP/1.1 502 BAD GATEWAY"
        (process_http_request net503 ⟨"2.0", "eth_blockNumber", 1⟩) = true := by
  exact ⟨rfl, by decide, by decide, by decide⟩

/-- C3 amended: the 200 and 502 responses written by the HTTP frontend are
standard HTTP/1.1 responses — status line, `Content-Length` equal to the byte
length of the body, blank line, body; the envelope-validation failure
response has the 400 status line, a blank line and the error text as body,
but carries no `Content-Length` header. -/
theorem c3_amended_http_framing (net : String → UpstreamOutcome)
    (render : List (String × String) → String) (r : JsonRequest) :
    (∀ c, handle_request net r = Except.ok c →
        process_http_request net r = framedResponse "HTTP/1.1 200 OK" c)
    ∧ (∀ c, handle_request net r = Except.error c →
        process_http_request net r = framedResponse "HTTP/1.1 502 BAD GATEWAY" c)
    ∧ (∀ e, r.validate = Except.error e →
        httpRespond net render r = "HTTP/1.1 400 BAD REQUEST" ++ "\r\n\r\n" ++ render e) := by
  refine ⟨?_, ?_, ?_⟩
  · intro c hc
    simp [process_http_request, hc, framedResponse]
  · intro c hc
    simp [process_http_request, hc, framedResponse]
  · intro e he
    simp [httpRespond, he]

/-- C3 amended witness: concrete 200, 502 and 400 exchanges. -/
theorem c3_amended_http_framing_witness :
    process_http_request net200 ⟨"2.0", "eth_blockNumber", 1⟩
      = framedResponse "HTTP/1.1 200 OK" "\x7b\"jsonrpc\":\"2.0\",\"id\":1,\"result\":\"0x0\"\x7d"
    ∧ process_http_request net503 ⟨"2.0", "eth_blockNumber", 1⟩
      = framedResponse "HTTP/1.1 502 BAD GATEWAY"
          "\x7b\"jsonrpc\":\"2.0\",\"id\":\"1\",\"error\":\"Infura failure: Responded with status code: 503\"\x7d"
    ∧ httpRespond emptyNet emptyRender ⟨"1.0", "foo", 7⟩
      = "HTTP/1.1 400 BAD REQUEST" ++ "\r\n\r\n" ++ emptyRender [("jsonrpc", "Unsupported jsonrpc version")] := by
  refine ⟨?_, ?_, ?_⟩
  · exact (c3_amended_http_framing net200 emptyRender ⟨"2.0", "eth_blockNumber", 1⟩).1 _ rfl
  · exact (c3_amended_http_framing net503 emptyRender ⟨"2.0", "eth_blockNumber", 1⟩).2.1 _ rfl
  · exact (c3_amended_http_framing emptyNet emptyRender ⟨"1.0", "foo", 7⟩).2.2 _
      (validate_error_of_ne _ (by decide))

/-- C4 counterexample: the claim says a malformed body is fatal only to the
connection while the process keeps serving.  On the IPC frontend the
deserialization failure panics through `obj.unwrap()` (line 109) and the
panic hook installed by `set_ipc_cleanup_handlers` removes the socket file
and calls `process::exit(1)` (lines 54-59), so the whole process exits; the
same malformed body on the HTTP frontend (no hook installed) leaves the
process running. -/
theorem c4_counterexample_ipc_process_exit :
    ipcConnectionOutcome emptyNet emptyRender [ParseItem.malformed] true
      = ProcessOutcome.exitedWithCode 1
    ∧ httpConnectionOutcome emptyNet emptyRender [ParseItem.malformed]
      = ProcessOutcome.running := by
  exact ⟨rfl, rfl⟩

/-- C4 amended: a malformed body tears the connection down (requests before
it are answered, nothing after it is served).  On the HTTP frontend the
worker's panic is caught by the thread pool and the process keeps running;
on the IPC frontend the installed panic hook removes the socket file and
exits the whole process with code 1 (or faults secondarily if the file is
already gone), so the process does not keep serving. -/
theorem c4_amended_malformed_teardown (net : String → UpstreamOutcome)
    (render : List (String × String) → String) (pre : List JsonRequest)
    (post : List ParseItem) :
    (serve_ipc_client net render (pre.map ParseItem.ok ++ ParseItem.malformed :: post)).1
      = pre.map (ipcRespond net render)
    ∧ (serve_ipc_client net render (pre.map ParseItem.ok ++ ParseItem.malformed :: post)).2
      = ConnEnd.tornDown
    ∧ (serve_http_client net render (pre.map ParseItem.ok ++ ParseItem.malformed :: post)).1
      = pre.map (httpRespond net render)
    ∧ httpConnectionOutcome net render (pre.map ParseItem.ok ++ ParseItem.malformed :: post)
      = ProcessOutcome.running
    ∧ ipcConnectionOutcome net render (pre.map ParseItem.ok ++ ParseItem.malformed :: post) true
      = ProcessOutcome.exitedWithCode 1
    ∧ ipcConnectionOutcome net render (pre.map ParseItem.ok ++ ParseItem.malformed :: post) false
      = ProcessOutcome.abortedSecondary := by
  have hi := serveItems_okPrefix_malformed (ipcRespond net render) pre post
  have hh := serveItems_okPrefix_malformed (httpRespond net render) pre post
  refine ⟨?_, ?_, ?_, ?_, ?_, ?_⟩ <;>
    simp [serve_ipc_client, serve_http_client, hi, hh, httpConnectionOutcome,
      ipcConnectionOutcome, connectionProcessOutcome, panicProcessOutcome, removeFileResult]

/-- C5 counterexample: a request carrying a `params` member deserializes into
the three-field `JsonRequest` struct (unknown fields are dropped by serde),
so the body `serde_json::to_string(&obj)` hands to the proxy serializes only
`jsonrpc`, `method` and `id` — it is not the full original envelope, whose
re-serialization still contains `params`. -/
theorem c5_counterexample_params_dropped :
    deserializeJsonRequest (Json.obj c5Members) = some ⟨"2.0", "eth_getBlockByNumber", 1⟩
    ∧ renderJson (Json.obj c5Members)
      = "\x7b\"jsonrpc\":\"2.0\",\"method\":\"eth_getBlockByNumber\",\"id\":1,\"params\":[\"latest\",false]\x7d"
    ∧ serializeJsonRequest ⟨"2.0", "eth_getBlockByNumber", 1⟩
      = "\x7b\"jsonrpc\":\"2.0\",\"method\":\"eth_getBlockByNumber\",\"id\":1\x7d"
    ∧ (serializeJsonRequest ⟨"2.0", "eth_getBlockByNumber", 1⟩
        == renderJson (Json.obj c5Members)) = false
    ∧ (lookupField c5Members "params").isSome = true
    ∧ lookupField (jsonMembers (jsonOfRequest ⟨"2.0", "eth_getBlockByNumber", 1⟩)) "params"
      = none := by
  exact ⟨rfl, rfl, rfl, by decide, rfl, rfl⟩

/-- C5 amended: for a parsed envelope whose method is not `web3_clientVersion`,
the only string the upstream network is consulted on is
`serializeJsonRequest r`, which serializes exactly the struct's three declared
fields; any member of the original request body other than `jsonrpc`, `method`
and `id` is absent from the forwarded object. -/
theorem c5_amended_forward_three_fields (members : List (String × Json)) (r : JsonRequest)
    (net net' : String → UpstreamOutcome)
    (hd : deserializeJsonRequest (Json.obj members) = some r)
    (hm : r.method ≠ "web3_clientVersion")
    (hagree : net (serializeJsonRequest r) = net' (serializeJsonRequest r)) :
    handle_request net r = handle_request net' r
    ∧ serializeJsonRequest r
      = renderJson (Json.obj [("jsonrpc", Json.str r.jsonrpc),
          ("method", Json.str r.method), ("id", Json.num (r.id : Int))])
    ∧ (∀ k, k ≠ "jsonrpc" → k ≠ "method" → k ≠ "id" →
        lookupField (jsonMembers (jsonOfRequest r)) k = none) := by
  have hp : proxy_to_url net (serializeJsonRequest r)
      = proxy_to_url net' (serializeJsonRequest r) := by
    unfold proxy_to_url
    rw [hagree]
  refine ⟨by simp [handle_request, hm, hp], rfl, ?_⟩
  intro k h1 h2 h3
  simp [jsonOfRequest, jsonMembers, lookupField, Ne.symm h1, Ne.symm h2, Ne.symm h3]

/-- C5 amended witness: at the concrete `params`-carrying request, the
forwarded object has no `params` member. -/
theorem c5_amended_forward_three_fields_witness :
    lookupField (jsonMembers (jsonOfRequest ⟨"2.0", "eth_getBlockByNumber", 1⟩)) "params"
      = none := by
  exact (c5_amended_forward_three_fields c5Members ⟨"2.0", "eth_getBlockByNumber", 1⟩
    emptyNet emptyNet rfl (by decide) rfl).2.2 "params" (by decide) (by decide) (by decide)

/-- C6: when the upstream call for a proxied request fails — transport error,
non-2xx status, or a failed body read on a 2xx response — the client receives
exactly `\x7b"jsonrpc":"2.0","id":"<id>","error":"Infura failure: <detail>"\x7d`
with the id interpolated between quotes (unlike the unquoted id of the local
success payload, cf. the C1 theorem). -/
theorem c6_proxy_failure_payload (net : String → UpstreamOutcome) (r : JsonRequest)
    (hv : r.validate = Except.ok ()) (hm : r.method ≠ "web3_clientVersion") :
    (∀ err, net (serializeJsonRequest r) = UpstreamOutcome.sendError err →
      handle_request net r
        = Except.error ("\x7b\"jsonrpc\":\"2.0\",\"id\":\"" ++ toString r.id
            ++ "\",\"error\":\"Infura failure: " ++ ("Request failure: " ++ err) ++ "\"\x7d"))
    ∧ (∀ status body, net (serializeJsonRequest r) = UpstreamOutcome.response status body →
        statusIsSuccess status = false →
        handle_request net r
          = Except.error ("\x7b\"jsonrpc\":\"2.0\",\"id\":\"" ++ toString r.id
              ++ "\",\"error\":\"Infura failure: "
              ++ ("Responded with status code: " ++ toString status) ++ "\"\x7d"))
    ∧ (∀ status, net (serializeJsonRequest r) = UpstreamOutcome.response status none →
        statusIsSuccess status = true →
        handle_request net r
          = Except.error ("\x7b\"jsonrpc\":\"2.0\",\"id\":\"" ++ toString r.id
              ++ "\",\"error\":\"Infura failure: "
              ++ "Unexpected error when accessing the response body" ++ "\"\x7d")) := by
  refine ⟨?_, ?_, ?_⟩
  · intro err h
    simp [handle_request, hm, proxy_to_url, h]
  · intro status body h hs
    simp [handle_request, hm, proxy_to_url, h, hs]
  · intro status h hs
    simp [handle_request, hm, proxy_to_url, h, hs]

/-- C6 witness: the spec scenario — upstream answers 503, the client gets the
quoted-id Infura-failure envelope. -/
theorem c6_proxy_failure_payload_witness :
    handle_request net503 ⟨"2.0", "eth_blockNumber", 5⟩
      = Except.error "\x7b\"jsonrpc\":\"2.0\",\"id\":\"5\",\"error\":\"Infura failure: Responded with status code: 503\"\x7d" := by
  have h := (c6_proxy_failure_payload net503 ⟨"2.0", "eth_blockNumber", 5⟩ rfl
    (by decide)).2.1 503 (some "") rfl rfl
  rw [h]
  rfl

/-- C7: when the upstream call for a proxied request returns a 2xx status and
its body is read successfully, the success payload delivered to the client is
that body verbatim: `handle_request` returns it unchanged, the IPC frontend
writes it back as-is, and the HTTP frontend wraps exactly it as the body of
the 200 response.  (Bodies are modelled as UTF-8 strings; the Rust code
panics on a non-UTF-8 body before any reply is produced.) -/
theorem c7_success_body_verbatim (net : String → UpstreamOutcome) (r : JsonRequest)
    (status : Nat) (body : String)
    (hv : r.validate = Except.ok ()) (hm : r.method ≠ "web3_clientVersion")
    (h : net (serializeJsonRequest r) = UpstreamOutcome.response status (some body))
    (hs : statusIsSuccess status = true) :
    handle_request net r = Except.ok body
    ∧ (∀ render, ipcRespond net render r = body)
    ∧ process_http_request net r = framedResponse "HTTP/1.1 200 OK" body := by
  have hr : handle_request net r = Except.ok body := by
    simp [handle_request, hm, proxy_to_url, h, hs]
  refine ⟨hr, ?_, ?_⟩
  · intro render
    simp [ipcRespond, hv, hr]
  · simp [process_http_request, hr, framedResponse]

/-- C7 witness: a 200 upstream with a concrete body is relayed unchanged. -/
theorem c7_success_body_verbatim_witness :
    handle_request net200 ⟨"2.0", "eth_blockNumber", 1⟩
      = Except.ok "\x7b\"jsonrpc\":\"2.0\",\"id\":1,\"result\":\"0x0\"\x7d"
    ∧ ipcRespond net200 emptyRender ⟨"2.0", "eth_blockNumber", 1⟩
      = "\x7b\"jsonrpc\":\"2.0\",\"id\":1,\"result\":\"0x0\"\x7d" := by
  have h := c7_success_body_verbatim net200 ⟨"2.0", "eth_blockNumber", 1⟩ 200
    "\x7b\"jsonrpc\":\"2.0\",\"id\":1,\"result\":\"0x0\"\x7d" rfl (by decide) rfl rfl
  exact ⟨h.1, h.2.1 emptyRender⟩

/-- C8: an IPC request that parses but fails envelope validation is answered
with exactly the raw text `Unsupported trin request: <validation error>`; the
reply is the same under every upstream network, so the dispatch/proxy path is
not invoked; the loop then continues with the rest of the stream, and a
stream of well-parsed requests after it is served in order, one reply each,
with the connection ending only at end of input. -/
theorem c8_ipc_invalid_reply_continue (net net' : String → UpstreamOutcome)
    (render : List (String × String) → String) (r : JsonRequest)
    (errs : List (String × String)) (rest : List ParseItem)
    (hv : r.validate = Except.error errs) :
    ipcRespond net render r = "Unsupported trin request: " ++ render errs
    ∧ ipcRespond net render r = ipcRespond net' render r
    ∧ serve_ipc_client net render (ParseItem.ok r :: rest)
      = (ipcRespond net render r :: (serve_ipc_client net render rest).1,
         (serve_ipc_client net render rest).2)
    ∧ (∀ objs : List JsonRequest,
        serve_ipc_client net render (ParseItem.ok r :: objs.map ParseItem.ok)
          = (ipcRespond net render r :: objs.map (ipcRespond net render), ConnEnd.eof)) := by
  refine ⟨by simp [ipcRespond, hv], by simp [ipcRespond, hv], rfl, ?_⟩
  intro objs
  have h := serveItems_allOk (ipcRespond net render) objs
  simp [serve_ipc_client, serveItems, h]

/-- C8 witness: a jsonrpc-1.0 request is answered with the raw error text and
a following valid request on the same connection is still served. -/
theorem c8_ipc_invalid_reply_continue_witness :
    serve_ipc_client emptyNet emptyRender
      [ParseItem.ok ⟨"1.0", "eth_blockNumber", 3⟩, ParseItem.ok ⟨"2.0", "web3_clientVersion", 4⟩]
      = (["Unsupported trin request: ",
          "\x7b\"jsonrpc\":\"2.0\",\"id\":4,\"result\":\"trin 0.0.1-alpha\"\x7d"], ConnEnd.eof) := by
  have h := (c8_ipc_invalid_reply_continue emptyNet emptyNet emptyRender
    ⟨"1.0", "eth_blockNumber", 3⟩ [("jsonrpc", "Unsupported jsonrpc version")]
    [ParseItem.ok ⟨"2.0", "web3_clientVersion", 4⟩]
    (validate_error_of_ne _ (by decide))).2.2.2 [⟨"2.0", "web3_clientVersion", 4⟩]
  exact h.trans (by rfl)

/-- C9 counterexample: the claim says a failed deletion of the socket file
never crashes the handler.  Both the ctrl-c handler (line 48) and the panic
hook (line 56) call `fs::remove_file(..).unwrap()`, so with the file already
gone (the state after either path has fired once) the `unwrap` panics inside
the handler — a secondary fault. -/
theorem c9_counterexample_failed_delete_panics :
    ctrlcHandlerEffects false
      = [HandlerEffect.removeFileAttempt, HandlerEffect.panickedSecondary]
    ∧ panicHookEffects false
      = [HandlerEffect.removeFileAttempt, HandlerEffect.panickedSecondary]
    ∧ HandlerEffect.panickedSecondary ∈ ctrlcHandlerEffects false
    ∧ HandlerEffect.panickedSecondary ∈ panicHookEffects false := by
  exact ⟨rfl, rfl, by decide, by decide⟩

/-- C9 amended: both the signal handler and the panic hook attempt the
deletion first; when the file is present they delete it and exit with code 1
(the hook also chains to the original diagnostic hook), but when the deletion
fails because the file is already gone, the unwrapped result panics the
handler — a secondary fault. -/
theorem c9_amended_delete_attempted_unwrap (present : Bool) :
    (ctrlcHandlerEffects present).head? = some HandlerEffect.removeFileAttempt
    ∧ (panicHookEffects present).head? = some HandlerEffect.removeFileAttempt
    ∧ (present = true →
        ctrlcHandlerEffects present
          = [HandlerEffect.removeFileAttempt, HandlerEffect.exitProcess 1]
        ∧ panicHookEffects present
          = [HandlerEffect.removeFileAttempt, HandlerEffect.invokeOriginalHook,
             HandlerEffect.exitProcess 1])
    ∧ (present = false →
        HandlerEffect.panickedSecondary ∈ ctrlcHandlerEffects present
        ∧ HandlerEffect.panickedSecondary ∈ panicHookEffects present) := by
  cases present
  · refine ⟨rfl, rfl, by simp, ?_⟩
    intro _
    exact ⟨by decide, by decide⟩
  · refine ⟨rfl, rfl, ?_, by simp⟩
    intro _
    exact ⟨rfl, rfl⟩

/-- C9 amended witness: with the file present, both handlers delete and exit. -/
theorem c9_amended_delete_attempted_unwrap_witness :
    ctrlcHandlerEffects true = [HandlerEffect.removeFileAttempt, HandlerEffect.exitProcess 1]
    ∧ panicHookEffects true
      = [HandlerEffect.removeFileAttempt, HandlerEffect.invokeOriginalHook,
         HandlerEffect.exitProcess 1] := by
  exact (c9_amended_delete_attempted_unwrap true).2.2.1 rfl

/-- C10: deserialization into a `JsonRequest` succeeds only when the `id`
member is an unsigned integer below 2^32 (and the successful id is exactly
that member's value); an `id` that is a string, negative, or at least 2^32
makes the whole body undeserializable, which on both frontends is a fatal
connection error — the loop ends with the connection torn down, no reply and
in particular no validation-failure reply is written for it. -/
theorem c10_id_u32_bound :
    (∀ j r, deserializeJsonRequest j = some r → r.id < 4294967296)
    ∧ (∀ members r, deserializeJsonRequest (Json.obj members) = some r →
        lookupField members "id" = some (Json.num (r.id : Int)))
    ∧ (∀ members s, lookupField members "id" = some (Json.str s) →
        deserializeJsonRequest (Json.obj members) = none)
    ∧ (∀ members n, lookupField members "id" = some (Json.num n) →
        (n < 0 ∨ 4294967296 ≤ n) → deserializeJsonRequest (Json.obj members) = none)
    ∧ (∀ net render rest,
        serve_ipc_client net render (ParseItem.malformed :: rest) = ([], ConnEnd.tornDown)
        ∧ serve_http_client net render (ParseItem.malformed :: rest) = ([], ConnEnd.tornDown))
    ∧ (∀ j, deserializeJsonRequest j = none → parseItemOf j = ParseItem.malformed) := by
  refine ⟨?_, ?_, ?_, ?_, ?_, ?_⟩
  · intro j r h
    cases j with
    | obj members =>
      obtain ⟨jj, mm, n, hj, hm2, hid, h0, hlt, rfl⟩ := deserialize_obj_char members r h
      exact (by omega : n.toNat < 4294967296)
    | null => exact Option.noConfusion h
    | bool b => exact Option.noConfusion h
    | num m => exact Option.noConfusion h
    | str s => exact Option.noConfusion h
    | arr es => exact Option.noConfusion h
  · intro members r h
    obtain ⟨jj, mm, n, hj, hm2, hid, h0, hlt, rfl⟩ := deserialize_obj_char members r h
    rw [hid]
    have hn : ((n.toNat : Nat) : Int) = n := Int.toNat_of_nonneg h0
    exact congrArg (fun x => some (Json.num x)) hn.symm ▸ rfl
  · intro members s h
    cases hd : deserializeJsonRequest (Json.obj members) with
    | none => rfl
    | some r =>
      obtain ⟨jj, mm, n, hj, hm2, hid, h0, hlt, rfl⟩ := deserialize_obj_char members r hd
      rw [h] at hid
      exact absurd hid (by simp)
  · intro members n h hbad
    cases hd : deserializeJsonRequest (Json.obj members) with
    | none => rfl
    | some r =>
      obtain ⟨jj, mm, m, hj, hm2, hid, h0, hlt, rfl⟩ := deserialize_obj_char members r hd
      rw [h] at hid
      injection hid with hid'
      injection hid' with hid''
      exfalso
      rcases hbad with hb | hb <;> omega
  · intro net render rest
    exact ⟨rfl, rfl⟩
  · intro j h
    unfold parseItemOf
    rw [h]

/-- C10 witness: a string id, a negative id and an id of 2^32 all fail to
deserialize, and a malformed item tears the IPC connection down unanswered. -/
theorem c10_id_u32_bound_witness :
    deserializeJsonRequest (Json.obj [("jsonrpc", Json.str "2.0"), ("method", Json.str "m"),
        ("id", Json.str "1")]) = none
    ∧ deserializeJsonRequest (Json.obj [("jsonrpc", Json.str "2.0"), ("method", Json.str "m"),
        ("id", Json.num (-1))]) = none
    ∧ deserializeJsonRequest (Json.obj [("jsonrpc", Json.str "2.0"), ("method", Json.str "m"),
        ("id", Json.num 4294967296)]) = none
    ∧ serve_ipc_client emptyNet emptyRender [ParseItem.malformed, ParseItem.ok ⟨"2.0", "m", 1⟩]
      = ([], ConnEnd.tornDown) := by
  refine ⟨?_, ?_, ?_, ?_⟩
  · exact c10_id_u32_bound.2.2.1 _ "1" rfl
  · exact c10_id_u32_bound.2.2.2.1 _ (-1) rfl (Or.inl (by decide))
  · exact c10_id_u32_bound.2.2.2.1 _ 4294967296 rfl (Or.inr (by decide))
  · exact (c10_id_u32_bound.2.2.2.2.1 emptyNet emptyRender [ParseItem.ok ⟨"2.0", "m", 1⟩]).1

end Trin
